import Mathlib

/-!
Shallow embedding of the AI exam-grading application (`src/st_app.py`) and
proofs of the specified properties.

Scores are Python floats in the source; they are embedded as rationals (`ℚ`).
SQL `Integer` columns are embedded as `ℤ`, auto-increment primary keys as `Nat`.
The external Gemini call is embedded as an oracle: the grading code is a pure
function of the (already received and JSON-parsed) response, and of the exact
arguments the call site passes.
-/

namespace StApp

/-- Row of the `question` table (`class Question`, st_app.py lines 34-40). -/
structure QuestionRow where
  id : Nat
  exam_id : Nat
  question_text : String
  correct_answer : String
  points : ℤ
  deriving DecidableEq, Repr

/-- Row of the `exam` table (`class Exam`, st_app.py lines 28-32). -/
structure ExamRow where
  id : Nat
  title : String
  deriving DecidableEq, Repr

/-- Row of the `submission` table (`class Submission`, st_app.py lines 42-51).
`final_score` and `total_points` are nullable columns. -/
structure SubmissionRow where
  id : Nat
  exam_id : Nat
  student_name : String
  matric_number : String
  department : String
  final_score : Option ℚ
  total_points : Option ℤ
  deriving DecidableEq, Repr

/-- Row of the `answer` table (`class Answer`, st_app.py lines 53-61). -/
structure AnswerRow where
  submission_id : Nat
  question_id : Nat
  extracted_text : String
  awarded_score : ℚ
  feedback : String
  deriving DecidableEq, Repr

/-- The persistent store: the four tables of the SQLite database. -/
structure Store where
  exams : List ExamRow
  questions : List QuestionRow
  submissions : List SubmissionRow
  answers : List AnswerRow
  deriving DecidableEq, Repr

/-! ### Embedding of `analyze_answer_with_gemini_vision` (lines 85-131)

The function sends one prompt+image to Gemini, strips Markdown fences, parses
the response as JSON, clamps the score, and falls back on any exception.
Everything up to and including a successful `json.loads` + `float(...)` is
summarised by `GeminiResponse`: `failure` covers every raising path (network
error, malformed JSON, non-dict JSON, non-numeric score), and `success r`
covers a parsed JSON dict whose fields are read with `dict.get` defaults. -/

/-- The fields the code reads from the parsed JSON dict, each `none` when the
key is absent (`result.get` then supplies the default). -/
structure ParsedResult where
  extracted_text : Option String
  reasoning : Option String
  score : Option ℚ
  deriving DecidableEq, Repr

/-- Outcome of the Gemini call as seen after `json.loads`: `failure` is any
exception on the way (caught at line 125), `success` a parsed dict. -/
inductive GeminiResponse where
  | failure : GeminiResponse
  | success : ParsedResult → GeminiResponse
  deriving DecidableEq, Repr

/-- The dict returned by `analyze_answer_with_gemini_vision`. -/
structure AnalysisResult where
  extracted_text : String
  feedback : String
  awarded_score : ℚ
  deriving DecidableEq, Repr

/-- The fixed fallback feedback string (st_app.py line 129). -/
def apiErrorFeedback : String := "Could not analyze due to an API error."

/-- Python `max(0, min(raw_score, points_for_question))` (line 118). -/
def pythonClamp (raw : ℚ) (p : ℤ) : ℚ := max 0 (min raw (p : ℚ))

/-- The function `analyze_answer_with_gemini_vision` (lines 85-131) as a
function of the parsed response and the max points. On the success path it reads
`result.get('score', 0)`, clamps, and reads `extracted_text` / `reasoning`
with `''` defaults; on any exception it returns the fixed fallback dict. -/
def analyze_answer_with_gemini_vision (resp : GeminiResponse) (points_for_question : ℤ) :
    AnalysisResult :=
  match resp with
  | .failure => { extracted_text := "", feedback := apiErrorFeedback, awarded_score := 0 }
  | .success result =>
      let raw_score : ℚ := result.score.getD 0
      let score := pythonClamp raw_score points_for_question
      { extracted_text := result.extracted_text.getD ""
        feedback := result.reasoning.getD ""
        awarded_score := score }

/-! ### Embedding of the grading call site and the Take Exam submit handler
(st_app.py lines 178-250). -/

/-- The Gemini model as an oracle: the (parsed) response is a function of
exactly what the call receives — the question text interpolated in the prompt,
the image path, and the max points (lines 85-112, call at line 225). -/
def Oracle : Type := String → String → ℤ → GeminiResponse

/-- Image path construction of line 216:
`os.path.join(UPLOAD_FOLDER, f"sub{id}_q{qid}_{name}")`. -/
def imagePath (subId qId : Nat) (fname : String) : String :=
  "uploads/sub" ++ toString subId ++ "_q" ++ toString qId ++ "_" ++ fname

/-- One grading call as made at line 225:
`analyze_answer_with_gemini_vision(question.question_text, image_path, question.points)`. -/
def gradeQuestion (oracle : Oracle) (q : QuestionRow) (img : String) : AnalysisResult :=
  analyze_answer_with_gemini_vision (oracle q.question_text img q.points) q.points

/-- The `Answer` row built at lines 237-240 for one question, using the upload
for that question's id (present whenever the precondition held). -/
def gradedAnswer (oracle : Oracle) (subId : Nat) (uploads : Nat → Option String)
    (q : QuestionRow) : AnswerRow :=
  let r := gradeQuestion oracle q (imagePath subId q.id ((uploads q.id).getD ""))
  { submission_id := subId
    question_id := q.id
    extracted_text := r.extracted_text
    awarded_score := r.awarded_score
    feedback := r.feedback }

/-- The grading loop of lines 210-242: walks the exam's questions in order,
appending one `Answer` per question and accumulating `total_score`. -/
def gradeLoop (oracle : Oracle) (subId : Nat) (uploads : Nat → Option String) :
    List QuestionRow → ℚ → List AnswerRow → ℚ × List AnswerRow
  | [], total_score, acc => (total_score, acc)
  | q :: rest, total_score, acc =>
      let r := gradedAnswer oracle subId uploads q
      gradeLoop oracle subId uploads rest (total_score + r.awarded_score) (acc ++ [r])

/-- The submit precondition of line 201:
`all(uploaded_files.values()) and student_name and matric_number and department`
(Python truthiness of a string is non-emptiness; `uploaded_files` holds one
entry per question of the selected exam, falsy exactly when no file uploaded). -/
def takeExamPrecond (qs : List QuestionRow) (uploads : Nat → Option String)
    (student_name matric_number department : String) : Bool :=
  qs.all (fun q => (uploads q.id).isSome) &&
    student_name != "" && matric_number != "" && department != ""

/-- Questions of the selected exam, as loaded by the `Exam.questions`
relationship (insertion order). -/
def examQuestions (s : Store) (examId : Nat) : List QuestionRow :=
  s.questions.filter (fun q => q.exam_id == examId)

/-- The Take Exam submit handler (lines 200-249): if the precondition holds,
inserts one `Submission` with `total_points` precomputed (lines 202-206), runs
the grading loop inserting one `Answer` per question, then finalises
`final_score = total_score` (line 244) — the store returned is the committed
state after line 245. If the precondition fails, only an error is shown
(line 249) and nothing is written. -/
def takeExamSubmit (s : Store) (oracle : Oracle) (examId : Nat)
    (uploads : Nat → Option String) (student_name matric_number department : String)
    (subId : Nat) : Store :=
  let qs := examQuestions s examId
  if takeExamPrecond qs uploads student_name matric_number department then
    let total_possible_points : ℤ := (qs.map (·.points)).sum
    let graded := gradeLoop oracle subId uploads qs 0 []
    { s with
      submissions := s.submissions ++
        [{ id := subId, exam_id := examId, student_name := student_name
           matric_number := matric_number, department := department
           final_score := some graded.1, total_points := some total_possible_points }]
      answers := s.answers ++ graded.2 }
  else s

/-! ### Embedding of the Create Exam submit handler (st_app.py lines 139-176). -/

/-- One entry of `st.session_state.questions`: `{"text": ..., "answer": ..., "points": ...}`. -/
structure QuestionEntry where
  text : String
  answer : String
  points : ℤ
  deriving DecidableEq, Repr

/-- The validation message of line 161. -/
def createExamError : String := "Please fill out the exam title and all question fields."

/-- The `Question` rows built in the authoring loop (lines 165-171), with
auto-increment ids assigned in insertion order starting at `nextQId`. -/
def buildQuestions (examId : Nat) : Nat → List QuestionEntry → List QuestionRow
  | _, [] => []
  | nextQId, e :: rest =>
      { id := nextQId, exam_id := examId, question_text := e.text
        correct_answer := e.answer, points := e.points } ::
        buildQuestions examId (nextQId + 1) rest

/-- The Create Exam submit handler (lines 159-176): if the title is empty or
any entry's text is empty, a single error message is shown and nothing is
written; otherwise one `Exam` row and one `Question` row per entry are
committed in entry order. Returns the store and the list of error messages. -/
def createExamSubmit (s : Store) (exam_title : String) (entries : List QuestionEntry)
    (examId nextQId : Nat) : Store × List String :=
  if exam_title == "" || entries.any (fun e => e.text == "") then
    (s, [createExamError])
  else
    ({ s with
       exams := s.exams ++ [{ id := examId, title := exam_title }]
       questions := s.questions ++ buildQuestions examId nextQId entries }, [])

/-! ### Embedding of the Admin bulk-delete handlers (st_app.py lines 297-335).

Each handler opens a session, issues table-clearing deletes in a fixed order,
and commits; SQLAlchemy makes the deletes durable only at `commit()`, and any
exception triggers `rollback()`, so the committed store is unchanged on
failure. A failure oracle says which delete statements raise. -/

/-- One `session.query(T).delete()` statement. -/
inductive DeleteStep where
  | delAnswers : DeleteStep
  | delSubmissions : DeleteStep
  | delQuestions : DeleteStep
  | delExams : DeleteStep
  deriving DecidableEq, Repr

/-- Effect of one delete statement on the (pending) store. -/
def applyStep (s : Store) : DeleteStep → Store
  | .delAnswers => { s with answers := [] }
  | .delSubmissions => { s with submissions := [] }
  | .delQuestions => { s with questions := [] }
  | .delExams => { s with exams := [] }

/-- Runs the delete statements in order against the pending session state;
`none` when one of them raises (the `except` branch is then taken). -/
def runDeletes (fails : DeleteStep → Bool) : Store → List DeleteStep → Option Store
  | pending, [] => some pending
  | pending, step :: rest =>
      if fails step then none else runDeletes fails (applyStep pending step) rest

/-- The "Clear All Submissions" handler (lines 297-309): deletes Answers then
Submissions inside one try; commit on success, rollback plus an error message
on failure. Returns the committed store and the error messages shown. -/
def clearAllSubmissions (fails : DeleteStep → Bool) (s : Store) : Store × List String :=
  match runDeletes fails s [DeleteStep.delAnswers, DeleteStep.delSubmissions] with
  | some pending => (pending, [])
  | none => (s, ["Error clearing submissions"])

/-- The "Clear All Exams" handler (lines 321-335): deletes Answers,
Submissions, Questions, then Exams inside one try; commit on success, rollback
plus an error message on failure. -/
def clearAllExams (fails : DeleteStep → Bool) (s : Store) : Store × List String :=
  match runDeletes fails s
      [DeleteStep.delAnswers, DeleteStep.delSubmissions,
       DeleteStep.delQuestions, DeleteStep.delExams] with
  | some pending => (pending, [])
  | none => (s, ["Error clearing exams"])

/-! ### Embedding of the ORM cascade deletes (st_app.py lines 32 and 51).

`Exam.questions` and `Submission.answers` both declare
`cascade="all, delete-orphan"`: deleting the parent row through the session
deletes every child row of the relationship. -/

/-- Effect of `session.delete(exam)` under the line-32 cascade: removes the
exam and all its questions. -/
def deleteExamCascade (s : Store) (examId : Nat) : Store :=
  { s with
    exams := s.exams.filter (fun e => e.id != examId)
    questions := s.questions.filter (fun q => q.exam_id != examId) }

/-- Effect of `session.delete(submission)` under the line-51 cascade: removes
the submission and all its answers. -/
def deleteSubmissionCascade (s : Store) (subId : Nat) : Store :=
  { s with
    submissions := s.submissions.filter (fun x => x.id != subId)
    answers := s.answers.filter (fun a => a.submission_id != subId) }

/-- Referential integrity for questions: every question's exam exists. -/
@[reducible] def noOrphanQuestions (s : Store) : Prop :=
  ∀ q ∈ s.questions, ∃ e ∈ s.exams, e.id = q.exam_id

/-- Referential integrity for answers: every answer's submission exists. -/
@[reducible] def noOrphanAnswers (s : Store) : Prop :=
  ∀ a ∈ s.answers, ∃ sub ∈ s.submissions, sub.id = a.submission_id

/-- No question of the given exam remains in the store. -/
@[reducible] def questionsOfExamRemoved (s : Store) (examId : Nat) : Prop :=
  ∀ q ∈ s.questions, q.exam_id ≠ examId

/-- No answer of the given submission remains in the store. -/
@[reducible] def answersOfSubmissionRemoved (s : Store) (subId : Nat) : Prop :=
  ∀ a ∈ s.answers, a.submission_id ≠ subId

/-! ### Strategy B (two-step pipeline).

`src/st_app.py` contains the extraction step `extract_text_with_gemini_vision`
(lines 67-83, unused in this variant) but not the two-step pipeline that calls
it; that pipeline lives in the repository's other application variant, outside
`src/`. The pipeline is therefore modelled from the spec. -/

/-- The function `extract_text_with_gemini_vision` (lines 67-83) as a function
of the call outcome: the stripped response text on success, `""` on any
exception. -/
def extract_text_with_gemini_vision (resp : Option String) : String :=
  match resp with
  | some text => text.trim
  | none => ""

/-- Result of one Strategy B grading: the extracted text, score, feedback, and
whether the text-only scoring call was attempted. -/
structure StrategyBResult where
  extracted_text : String
  awarded_score : ℚ
  feedback : String
  scoring_called : Bool
  deriving DecidableEq, Repr

/-- Modelled from the spec: the two-step (Strategy B) grading pipeline is not
under `src/` (only its extraction step `extract_text_with_gemini_vision` is).
Per spec §4.3: the extracted string, if non-empty, is passed as plain text to
a text-only scoring call; "If the text extraction yields an empty string,
scoring is skipped and the answer is recorded with feedback \"Not graded.\"
and score 0." -/
def strategyB_grade (scoreOracle : String → String → ℤ → ℚ × String)
    (question_text : String) (extractResp : Option String) (max_points : ℤ) :
    StrategyBResult :=
  let text := extract_text_with_gemini_vision extractResp
  if text == "" then
    { extracted_text := text, awarded_score := 0, feedback := "Not graded."
      scoring_called := false }
  else
    let scored := scoreOracle question_text text max_points
    { extracted_text := text, awarded_score := scored.1, feedback := scored.2
      scoring_called := true }

/-! ### Theorems -/

/-- C1: for every grading call with max points `p ≥ 1` and every parsed model
response — in particular every raw numeric score, also negative or above `p` —
the `awarded_score` returned by `analyze_answer_with_gemini_vision` lies in
the closed interval `[0, p]`. -/
theorem C1_awarded_score_clamped (resp : GeminiResponse) (p : ℤ) (hp : 1 ≤ p) :
    0 ≤ (analyze_answer_with_gemini_vision resp p).awarded_score ∧
      (analyze_answer_with_gemini_vision resp p).awarded_score ≤ (p : ℚ) := by
  have h0p : (0 : ℚ) ≤ (p : ℚ) := by
    have : (0 : ℤ) ≤ p := by omega
    exact_mod_cast this
  cases resp with
  | failure => exact ⟨le_refl 0, h0p⟩
  | success result =>
      refine ⟨?_, ?_⟩
      · exact le_max_left 0 _
      · exact max_le h0p (min_le_right _ _)

/-- Witness for C1 at the spec's scenario: max score 15 returned for a
10-point question is stored clamped into `[0, 10]`. -/
theorem C1_awarded_score_clamped_witness :
    (1 : ℤ) ≤ 10 ∧
      (0 ≤ (analyze_answer_with_gemini_vision
            (.success { extracted_text := some "x", reasoning := some "r",
                        score := some 15 }) 10).awarded_score ∧
        (analyze_answer_with_gemini_vision
            (.success { extracted_text := some "x", reasoning := some "r",
                        score := some 15 }) 10).awarded_score ≤ ((10 : ℤ) : ℚ)) :=
  ⟨by decide, C1_awarded_score_clamped _ 10 (by decide)⟩

/-- C2 counterexample: a parsed JSON object that lacks the `score` field is
not substituted with the fixed apology feedback — `result.get('score', 0)`
defaults silently and the feedback comes from the `reasoning` field, so the
claim's "in particular" case is false at this concrete input. -/
theorem C2_missing_score_counterexample :
    (analyze_answer_with_gemini_vision
        (.success { extracted_text := some "Water moves", reasoning := some "Good answer",
                    score := none }) 10).feedback ≠ apiErrorFeedback := by
  decide

/-- C2 (amended): an exception anywhere in the call or the parsing (network
error, malformed JSON, non-numeric score) is caught and substituted with
`awarded_score = 0` and the fixed apology feedback, never raising; but a
successfully parsed JSON object lacking the `score` field yields
`awarded_score = 0` (the silent `get` default, clamped) while its feedback is
the parsed `reasoning` field (empty if absent), not the apology string —
either way a storable result is produced. -/
theorem C2_failure_fallback (p : ℤ) (hp : 0 ≤ p) (result : ParsedResult)
    (hscore : result.score = none) :
    analyze_answer_with_gemini_vision .failure p =
      { extracted_text := "", feedback := apiErrorFeedback, awarded_score := 0 } ∧
    (analyze_answer_with_gemini_vision (.success result) p).awarded_score = 0 ∧
    (analyze_answer_with_gemini_vision (.success result) p).feedback =
      result.reasoning.getD "" := by
  have h0p : (0 : ℚ) ≤ (p : ℚ) := by exact_mod_cast hp
  refine ⟨rfl, ?_, rfl⟩
  simp [analyze_answer_with_gemini_vision, hscore, pythonClamp, min_eq_left h0p]

/-- Witness for C2's amended statement on a 10-point question and a response
whose JSON has `reasoning` but no `score`. -/
theorem C2_failure_fallback_witness :
    (0 : ℤ) ≤ 10 ∧
      ({ extracted_text := none, reasoning := some "Good answer",
         score := none } : ParsedResult).score = none ∧
      (analyze_answer_with_gemini_vision GeminiResponse.failure 10 =
          { extracted_text := "", feedback := apiErrorFeedback, awarded_score := 0 } ∧
        (analyze_answer_with_gemini_vision
            (.success { extracted_text := none, reasoning := some "Good answer",
                        score := none }) 10).awarded_score = 0 ∧
        (analyze_answer_with_gemini_vision
            (.success { extracted_text := none, reasoning := some "Good answer",
                        score := none }) 10).feedback =
          (some "Good answer").getD "") :=
  ⟨by decide, rfl, C2_failure_fallback 10 (by decide) _ rfl⟩

/-- C9: the `correct_answer` field never influences automated scoring — two
questions identical except in `correct_answer` produce the same grading call
(question text, image, max points) against any model oracle, hence the same
extracted text, awarded score and feedback, and the same stored `Answer`. -/
theorem C9_correct_answer_noninterference (oracle : Oracle) (q : QuestionRow)
    (c : String) (img : String) (subId : Nat) (uploads : Nat → Option String) :
    gradeQuestion oracle { q with correct_answer := c } img = gradeQuestion oracle q img ∧
      gradedAnswer oracle subId uploads { q with correct_answer := c } =
        gradedAnswer oracle subId uploads q :=
  ⟨rfl, rfl⟩

/-- C8: in the two-step Strategy B pipeline (modelled from the spec, see
`strategyB_grade`), whenever text extraction yields the empty string the
scoring call is not attempted and the result records score 0 with feedback
"Not graded.". -/
theorem C8_empty_extraction_not_graded (scoreOracle : String → String → ℤ → ℚ × String)
    (question_text : String) (extractResp : Option String) (max_points : ℤ)
    (h : extract_text_with_gemini_vision extractResp = "") :
    strategyB_grade scoreOracle question_text extractResp max_points =
      { extracted_text := "", awarded_score := 0, feedback := "Not graded.",
        scoring_called := false } := by
  simp [strategyB_grade, h]

/-- Witness for C8: a failed extraction (empty string) on a 10-point question
is recorded as "Not graded." with score 0 and no scoring call. -/
theorem C8_empty_extraction_not_graded_witness :
    extract_text_with_gemini_vision none = "" ∧
      strategyB_grade (fun _ _ _ => (7, "irrelevant")) "Define osmosis" none 10 =
        { extracted_text := "", awarded_score := 0, feedback := "Not graded.",
          scoring_called := false } :=
  ⟨rfl, C8_empty_extraction_not_graded _ "Define osmosis" none 10 rfl⟩

/-- Closed form of the grading loop: it appends one graded answer per
question, in order, and the returned total is the accumulator plus the sum of
the produced answers' scores. -/
theorem gradeLoop_eq (oracle : Oracle) (subId : Nat) (uploads : Nat → Option String) :
    ∀ (qs : List QuestionRow) (total : ℚ) (acc : List AnswerRow),
      gradeLoop oracle subId uploads qs total acc =
        (total + ((qs.map (gradedAnswer oracle subId uploads)).map (·.awarded_score)).sum,
          acc ++ qs.map (gradedAnswer oracle subId uploads)) := by
  intro qs
  induction qs with
  | nil => intro total acc; simp [gradeLoop]
  | cons q rest ih =>
      intro total acc
      rw [gradeLoop, ih]
      simp [add_assoc]

/-- C3: for every submission that passes the intake precondition and completes
the grading loop, the stored submission row carries
`final_score = sum of its answers' awarded_score` (the answers are exactly the
rows appended to the answer table) and
`total_points = sum of the exam's questions' points` as read at submission
time. -/
theorem C3_final_score_is_answer_sum (s : Store) (oracle : Oracle) (examId : Nat)
    (uploads : Nat → Option String) (sn mn dept : String) (subId : Nat)
    (h : takeExamPrecond (examQuestions s examId) uploads sn mn dept = true) :
    (takeExamSubmit s oracle examId uploads sn mn dept subId).submissions =
      s.submissions ++
        [{ id := subId, exam_id := examId, student_name := sn, matric_number := mn,
           department := dept,
           final_score := some
             ((((takeExamSubmit s oracle examId uploads sn mn dept subId).answers.drop
                 s.answers.length).map (·.awarded_score)).sum),
           total_points := some (((examQuestions s examId).map (·.points)).sum) }] := by
  simp [takeExamSubmit, h, gradeLoop_eq, List.drop_left]

/-- Witness for C3: one exam with one 10-point question, the model returning a
score of 8 — the stored submission sums its single answer. -/
theorem C3_final_score_is_answer_sum_witness :
    takeExamPrecond
        (examQuestions
          { exams := [{ id := 1, title := "Biology 101" }],
            questions := [{ id := 1, exam_id := 1, question_text := "Define osmosis",
                            correct_answer := "", points := 10 }],
            submissions := [], answers := [] } 1)
        (fun _ => some "ans.png") "Ada" "M123" "Biology" = true ∧
      (takeExamSubmit
          { exams := [{ id := 1, title := "Biology 101" }],
            questions := [{ id := 1, exam_id := 1, question_text := "Define osmosis",
                            correct_answer := "", points := 10 }],
            submissions := [], answers := [] }
          (fun _ _ _ => .success { extracted_text := some "Osmosis is water movement",
                                   reasoning := some "Mostly correct", score := some 8 })
          1 (fun _ => some "ans.png") "Ada" "M123" "Biology" 1).submissions =
        ([] : List SubmissionRow) ++
          [{ id := 1, exam_id := 1, student_name := "Ada", matric_number := "M123",
             department := "Biology",
             final_score := some
               ((((takeExamSubmit
                     { exams := [{ id := 1, title := "Biology 101" }],
                       questions := [{ id := 1, exam_id := 1,
                                       question_text := "Define osmosis",
                                       correct_answer := "", points := 10 }],
                       submissions := [], answers := [] }
                     (fun _ _ _ => .success
                        { extracted_text := some "Osmosis is water movement",
                          reasoning := some "Mostly correct", score := some 8 })
                     1 (fun _ => some "ans.png") "Ada" "M123" "Biology" 1).answers.drop
                   ([] : List AnswerRow).length).map (·.awarded_score)).sum),
             total_points := some
               (((examQuestions
                    { exams := [{ id := 1, title := "Biology 101" }],
                      questions := [{ id := 1, exam_id := 1,
                                      question_text := "Define osmosis",
                                      correct_answer := "", points := 10 }],
                      submissions := [], answers := [] } 1).map (·.points)).sum) }] :=
  ⟨by decide, C3_final_score_is_answer_sum _ _ 1 _ "Ada" "M123" "Biology" 1 (by decide)⟩

/-- C4: an intake attempt whose precondition fails (a missing upload for some
question of the selected exam, or an empty student name, matric number or
department) writes nothing: the store after the attempt is the store before
it — no submission row and no answer row is created. -/
theorem C4_invalid_intake_store_unchanged (s : Store) (oracle : Oracle) (examId : Nat)
    (uploads : Nat → Option String) (sn mn dept : String) (subId : Nat)
    (h : takeExamPrecond (examQuestions s examId) uploads sn mn dept = false) :
    takeExamSubmit s oracle examId uploads sn mn dept subId = s := by
  simp [takeExamSubmit, h]

/-- Witness for C4: an empty student name blocks the intake and the store — an
exam with one question and no uploads — is unchanged. -/
theorem C4_invalid_intake_store_unchanged_witness :
    takeExamPrecond
        (examQuestions
          { exams := [{ id := 1, title := "Biology 101" }],
            questions := [{ id := 1, exam_id := 1, question_text := "Define osmosis",
                            correct_answer := "", points := 10 }],
            submissions := [], answers := [] } 1)
        (fun _ => some "ans.png") "" "M123" "Biology" = false ∧
      takeExamSubmit
          { exams := [{ id := 1, title := "Biology 101" }],
            questions := [{ id := 1, exam_id := 1, question_text := "Define osmosis",
                            correct_answer := "", points := 10 }],
            submissions := [], answers := [] }
          (fun _ _ _ => GeminiResponse.failure) 1 (fun _ => some "ans.png")
          "" "M123" "Biology" 7 =
        { exams := [{ id := 1, title := "Biology 101" }],
          questions := [{ id := 1, exam_id := 1, question_text := "Define osmosis",
                          correct_answer := "", points := 10 }],
          submissions := [], answers := [] } :=
  ⟨by decide, C4_invalid_intake_store_unchanged _ _ 1 _ "" "M123" "Biology" 7 (by decide)⟩

/-- C10: for an exam with zero questions, the image precondition is vacuously
satisfied: a submit with non-empty identity fields creates exactly one
submission with `total_points = 0` and `final_score = 0`, no answer rows, and
(the result not depending on the oracle) no grading call. -/
theorem C10_zero_question_exam (s : Store) (oracle : Oracle) (examId : Nat)
    (uploads : Nat → Option String) (sn mn dept : String) (subId : Nat)
    (hq : examQuestions s examId = [])
    (hsn : (sn != "") = true) (hmn : (mn != "") = true) (hd : (dept != "") = true) :
    takeExamSubmit s oracle examId uploads sn mn dept subId =
      { s with submissions := s.submissions ++
          [{ id := subId, exam_id := examId, student_name := sn, matric_number := mn,
             department := dept, final_score := some 0, total_points := some 0 }] } := by
  simp [takeExamSubmit, takeExamPrecond, hq, hsn, hmn, hd, gradeLoop]

/-- Witness for C10: an exam with no questions, valid identity fields — one
zero-scored submission appears and the answer table stays empty. -/
theorem C10_zero_question_exam_witness :
    examQuestions
        { exams := [{ id := 2, title := "Empty exam" }], questions := [],
          submissions := [], answers := [] } 2 = [] ∧
      ("Ada" != "") = true ∧ ("M123" != "") = true ∧ ("Biology" != "") = true ∧
      takeExamSubmit
          { exams := [{ id := 2, title := "Empty exam" }], questions := [],
            submissions := [], answers := [] }
          (fun _ _ _ => GeminiResponse.failure) 2 (fun _ => none)
          "Ada" "M123" "Biology" 1 =
        { exams := [{ id := 2, title := "Empty exam" }], questions := [],
          submissions := [{ id := 1, exam_id := 2, student_name := "Ada",
                            matric_number := "M123", department := "Biology",
                            final_score := some 0, total_points := some 0 }],
          answers := [] } :=
  ⟨by decide, by decide, by decide, by decide,
    C10_zero_question_exam _ _ 2 _ "Ada" "M123" "Biology" 1 (by decide)
      (by decide) (by decide) (by decide)⟩

/-- Shape of the question rows built by the authoring loop: one row per entry,
in entry order, each keeping the submitted text, reference answer and points. -/
theorem buildQuestions_spec (examId : Nat) :
    ∀ (entries : List QuestionEntry) (nextQId : Nat),
      (buildQuestions examId nextQId entries).map (·.question_text) =
          entries.map (·.text) ∧
        (buildQuestions examId nextQId entries).map (·.points) =
          entries.map (·.points) ∧
        (buildQuestions examId nextQId entries).length = entries.length := by
  intro entries
  induction entries with
  | nil => intro n; simp [buildQuestions]
  | cons e rest ih =>
      intro n
      obtain ⟨h1, h2, h3⟩ := ih (n + 1)
      simp [buildQuestions, h1, h2, h3]

/-- C5: a Create Exam submit with non-empty title and all question texts
non-empty persists exactly one exam row and one question row per entry, in
entry order with each entry's text and points stored as submitted, and shows
no error; with an empty title or any empty question text nothing is written
and exactly the single validation message is surfaced. -/
theorem C5_create_exam_submit (s : Store) (exam_title : String)
    (entries : List QuestionEntry) (examId nextQId : Nat) :
    ((exam_title == "" || entries.any (fun e => e.text == "")) = false →
      createExamSubmit s exam_title entries examId nextQId =
          ({ s with
             exams := s.exams ++ [{ id := examId, title := exam_title }],
             questions := s.questions ++ buildQuestions examId nextQId entries }, []) ∧
        (buildQuestions examId nextQId entries).map (·.question_text) =
          entries.map (·.text) ∧
        (buildQuestions examId nextQId entries).map (·.points) =
          entries.map (·.points) ∧
        (buildQuestions examId nextQId entries).length = entries.length) ∧
    ((exam_title == "" || entries.any (fun e => e.text == "")) = true →
      createExamSubmit s exam_title entries examId nextQId = (s, [createExamError])) := by
  constructor
  · intro h
    obtain ⟨h1, h2, h3⟩ := buildQuestions_spec examId entries nextQId
    exact ⟨by simp [createExamSubmit, h], h1, h2, h3⟩
  · intro h
    simp [createExamSubmit, h]

/-- Witness for C5: a valid two-question authoring submit persists both
questions in order with their texts and points. -/
theorem C5_create_exam_submit_witness :
    (("Biology 101" == "") ||
        ([({ text := "Define osmosis", answer := "ref", points := 10 } : QuestionEntry),
          { text := "Define diffusion", answer := "", points := 5 }].any
          (fun e => e.text == ""))) = false ∧
      (createExamSubmit { exams := [], questions := [], submissions := [], answers := [] }
            "Biology 101"
            [{ text := "Define osmosis", answer := "ref", points := 10 },
             { text := "Define diffusion", answer := "", points := 5 }] 1 1 =
          ({ exams := [{ id := 1, title := "Biology 101" }],
             questions := buildQuestions 1 1
               [{ text := "Define osmosis", answer := "ref", points := 10 },
                { text := "Define diffusion", answer := "", points := 5 }],
             submissions := [], answers := [] }, []) ∧
        (buildQuestions 1 1
            [({ text := "Define osmosis", answer := "ref", points := 10 } : QuestionEntry),
             { text := "Define diffusion", answer := "", points := 5 }]).map
            (·.question_text) =
          ["Define osmosis", "Define diffusion"] ∧
        (buildQuestions 1 1
            [({ text := "Define osmosis", answer := "ref", points := 10 } : QuestionEntry),
             { text := "Define diffusion", answer := "", points := 5 }]).map (·.points) =
          [10, 5] ∧
        (buildQuestions 1 1
            [({ text := "Define osmosis", answer := "ref", points := 10 } : QuestionEntry),
             { text := "Define diffusion", answer := "", points := 5 }]).length = 2) :=
  ⟨by decide,
    (C5_create_exam_submit { exams := [], questions := [], submissions := [], answers := [] }
        "Biology 101"
        [{ text := "Define osmosis", answer := "ref", points := 10 },
         { text := "Define diffusion", answer := "", points := 5 }] 1 1).1 (by decide)⟩

/-- C6: each admin bulk-delete group is all-or-nothing. If any delete
statement of the group raises, the transaction is rolled back: the committed
store is exactly the pre-attempt store (so every table's row count is
unchanged) and the error is reported; if none raises, all rows of the group's
tables are removed and no error is shown. -/
theorem C6_bulk_delete_atomic (fails : DeleteStep → Bool) (s : Store) :
    ((fails .delAnswers || fails .delSubmissions) = true →
      clearAllSubmissions fails s = (s, ["Error clearing submissions"])) ∧
    ((fails .delAnswers || fails .delSubmissions) = false →
      clearAllSubmissions fails s = ({ s with answers := [], submissions := [] }, [])) ∧
    ((fails .delAnswers || fails .delSubmissions || fails .delQuestions ||
        fails .delExams) = true →
      clearAllExams fails s = (s, ["Error clearing exams"])) ∧
    ((fails .delAnswers || fails .delSubmissions || fails .delQuestions ||
        fails .delExams) = false →
      clearAllExams fails s =
        ({ s with answers := [], submissions := [], questions := [], exams := [] },
          [])) := by
  cases hA : fails .delAnswers <;> cases hS : fails .delSubmissions <;>
    cases hQ : fails .delQuestions <;> cases hE : fails .delExams <;>
    simp_all [clearAllSubmissions, clearAllExams, runDeletes, applyStep]

/-- Witness for C6: a failure at the Submission delete rolls the
Clear-All-Submissions group back, leaving a non-empty store untouched. -/
theorem C6_bulk_delete_atomic_witness :
    ((fun step => step == DeleteStep.delSubmissions) DeleteStep.delAnswers ||
        (fun step => step == DeleteStep.delSubmissions) DeleteStep.delSubmissions) = true ∧
      clearAllSubmissions (fun step => step == DeleteStep.delSubmissions)
          { exams := [{ id := 1, title := "Biology 101" }], questions := [],
            submissions := [{ id := 1, exam_id := 1, student_name := "Ada",
                              matric_number := "M123", department := "Biology",
                              final_score := some 8, total_points := some 10 }],
            answers := [{ submission_id := 1, question_id := 1, extracted_text := "t",
                          awarded_score := 8, feedback := "f" }] } =
        ({ exams := [{ id := 1, title := "Biology 101" }], questions := [],
           submissions := [{ id := 1, exam_id := 1, student_name := "Ada",
                             matric_number := "M123", department := "Biology",
                             final_score := some 8, total_points := some 10 }],
           answers := [{ submission_id := 1, question_id := 1, extracted_text := "t",
                         awarded_score := 8, feedback := "f" }] },
          ["Error clearing submissions"]) :=
  ⟨by decide,
    (C6_bulk_delete_atomic (fun step => step == DeleteStep.delSubmissions) _).1 (by decide)⟩

/-- C7: the declared delete cascades leave no orphans. Deleting an exam
removes every one of its questions, deleting a submission removes every one
of its answers, and when the store satisfies referential integrity beforehand
it still does afterwards: no question without its exam and no answer without
its submission remains. -/
theorem C7_cascade_no_orphans (s : Store) (examId subId : Nat)
    (hq : noOrphanQuestions s) (ha : noOrphanAnswers s) :
    questionsOfExamRemoved (deleteExamCascade s examId) examId ∧
      noOrphanQuestions (deleteExamCascade s examId) ∧
      answersOfSubmissionRemoved (deleteSubmissionCascade s subId) subId ∧
      noOrphanAnswers (deleteSubmissionCascade s subId) := by
  refine ⟨?_, ?_, ?_, ?_⟩
  · intro q hmem
    rw [deleteExamCascade] at hmem
    simp only [List.mem_filter, bne_iff_ne, ne_eq] at hmem
    exact hmem.2
  · intro q hmem
    rw [deleteExamCascade] at hmem
    simp only [List.mem_filter, bne_iff_ne, ne_eq] at hmem
    obtain ⟨e, he, heid⟩ := hq q hmem.1
    refine ⟨e, ?_, heid⟩
    simp only [deleteExamCascade, List.mem_filter, bne_iff_ne, ne_eq]
    exact ⟨he, by rw [heid]; exact hmem.2⟩
  · intro a hmem
    rw [deleteSubmissionCascade] at hmem
    simp only [List.mem_filter, bne_iff_ne, ne_eq] at hmem
    exact hmem.2
  · intro a hmem
    rw [deleteSubmissionCascade] at hmem
    simp only [List.mem_filter, bne_iff_ne, ne_eq] at hmem
    obtain ⟨sub, hsub, hsid⟩ := ha a hmem.1
    refine ⟨sub, ?_, hsid⟩
    simp only [deleteSubmissionCascade, List.mem_filter, bne_iff_ne, ne_eq]
    exact ⟨hsub, by rw [hsid]; exact hmem.2⟩

/-- Witness for C7: a two-exam, two-submission store with intact references —
deleting exam 1 and submission 1 leaves no orphan rows. -/
theorem C7_cascade_no_orphans_witness :
    noOrphanQuestions
        { exams := [{ id := 1, title := "A" }, { id := 2, title := "B" }],
          questions := [{ id := 1, exam_id := 1, question_text := "q1",
                          correct_answer := "", points := 10 },
                        { id := 2, exam_id := 2, question_text := "q2",
                          correct_answer := "", points := 5 }],
          submissions := [{ id := 1, exam_id := 1, student_name := "Ada",
                            matric_number := "M1", department := "D",
                            final_score := some 8, total_points := some 10 },
                          { id := 2, exam_id := 2, student_name := "Bob",
                            matric_number := "M2", department := "D",
                            final_score := some 5, total_points := some 5 }],
          answers := [{ submission_id := 1, question_id := 1, extracted_text := "t1",
                        awarded_score := 8, feedback := "f1" },
                      { submission_id := 2, question_id := 2, extracted_text := "t2",
                        awarded_score := 5, feedback := "f2" }] } ∧
      noOrphanAnswers
        { exams := [{ id := 1, title := "A" }, { id := 2, title := "B" }],
          questions := [{ id := 1, exam_id := 1, question_text := "q1",
                          correct_answer := "", points := 10 },
                        { id := 2, exam_id := 2, question_text := "q2",
                          correct_answer := "", points := 5 }],
          submissions := [{ id := 1, exam_id := 1, student_name := "Ada",
                            matric_number := "M1", department := "D",
                            final_score := some 8, total_points := some 10 },
                          { id := 2, exam_id := 2, student_name := "Bob",
                            matric_number := "M2", department := "D",
                            final_score := some 5, total_points := some 5 }],
          answers := [{ submission_id := 1, question_id := 1, extracted_text := "t1",
                        awarded_score := 8, feedback := "f1" },
                      { submission_id := 2, question_id := 2, extracted_text := "t2",
                        awarded_score := 5, feedback := "f2" }] } ∧
      (questionsOfExamRemoved
          (deleteExamCascade
            { exams := [{ id := 1, title := "A" }, { id := 2, title := "B" }],
              questions := [{ id := 1, exam_id := 1, question_text := "q1",
                              correct_answer := "", points := 10 },
                            { id := 2, exam_id := 2, question_text := "q2",
                              correct_answer := "", points := 5 }],
              submissions := [{ id := 1, exam_id := 1, student_name := "Ada",
                                matric_number := "M1", department := "D",
                                final_score := some 8, total_points := some 10 },
                              { id := 2, exam_id := 2, student_name := "Bob",
                                matric_number := "M2", department := "D",
                                final_score := some 5, total_points := some 5 }],
              answers := [{ submission_id := 1, question_id := 1, extracted_text := "t1",
                            awarded_score := 8, feedback := "f1" },
                          { submission_id := 2, question_id := 2, extracted_text := "t2",
                            awarded_score := 5, feedback := "f2" }] } 1) 1 ∧
        noOrphanQuestions
          (deleteExamCascade
            { exams := [{ id := 1, title := "A" }, { id := 2, title := "B" }],
              questions := [{ id := 1, exam_id := 1, question_text := "q1",
                              correct_answer := "", points := 10 },
                            { id := 2, exam_id := 2, question_text := "q2",
                              correct_answer := "", points := 5 }],
              submissions := [{ id := 1, exam_id := 1, student_name := "Ada",
                                matric_number := "M1", department := "D",
                                final_score := some 8, total_points := some 10 },
                              { id := 2, exam_id := 2, student_name := "Bob",
                                matric_number := "M2", department := "D",
                                final_score := some 5, total_points := some 5 }],
              answers := [{ submission_id := 1, question_id := 1, extracted_text := "t1",
                            awarded_score := 8, feedback := "f1" },
                          { submission_id := 2, question_id := 2, extracted_text := "t2",
                            awarded_score := 5, feedback := "f2" }] } 1) ∧
        answersOfSubmissionRemoved
          (deleteSubmissionCascade
            { exams := [{ id := 1, title := "A" }, { id := 2, title := "B" }],
              questions := [{ id := 1, exam_id := 1, question_text := "q1",
                              correct_answer := "", points := 10 },
                            { id := 2, exam_id := 2, question_text := "q2",
                              correct_answer := "", points := 5 }],
              submissions := [{ id := 1, exam_id := 1, student_name := "Ada",
                                matric_number := "M1", department := "D",
                                final_score := some 8, total_points := some 10 },
                              { id := 2, exam_id := 2, student_name := "Bob",
                                matric_number := "M2", department := "D",
                                final_score := some 5, total_points := some 5 }],
              answers := [{ submission_id := 1, question_id := 1, extracted_text := "t1",
                            awarded_score := 8, feedback := "f1" },
                          { submission_id := 2, question_id := 2, extracted_text := "t2",
                            awarded_score := 5, feedback := "f2" }] } 1) 1 ∧
        noOrphanAnswers
          (deleteSubmissionCascade
            { exams := [{ id := 1, title := "A" }, { id := 2, title := "B" }],
              questions := [{ id := 1, exam_id := 1, question_text := "q1",
                              correct_answer := "", points := 10 },
                            { id := 2, exam_id := 2, question_text := "q2",
                              correct_answer := "", points := 5 }],
              submissions := [{ id := 1, exam_id := 1, student_name := "Ada",
                                matric_number := "M1", department := "D",
                                final_score := some 8, total_points := some 10 },
                              { id := 2, exam_id := 2, student_name := "Bob",
                                matric_number := "M2", department := "D",
                                final_score := some 5, total_points := some 5 }],
              answers := [{ submission_id := 1, question_id := 1, extracted_text := "t1",
                            awarded_score := 8, feedback := "f1" },
                          { submission_id := 2, question_id := 2, extracted_text := "t2",
                            awarded_score := 5, feedback := "f2" }] } 1)) :=
  ⟨by decide, by decide, C7_cascade_no_orphans _ 1 1 (by decide) (by decide)⟩

end StApp
